import Mathlib

/-!
Verification development for the n8n-installer service integration tool
(`scripts/analyze_and_integrate.py` and `scripts/integrate/analyze_and_integrate.py`).

The Python program is shallowly embedded: repository contents are explicit
optional file contents, Python dictionaries are ordered association lists of
`Value`s, the regex-based extraction heuristics are implemented as dedicated
character-list scanners that mirror the behaviour of the specific patterns the
source uses, and fallible Python expressions return `Except PyErr`.
-/

set_option maxRecDepth 4000

namespace N8n

/-- A Python runtime value, restricted to the shapes this program produces. -/
inductive Value where
  | none
  | bool (b : Bool)
  | str (s : String)
  | list (xs : List Value)

/-- Python exceptions that the modelled code can raise. -/
inductive PyErr where
  | keyError
  | indexError
  | typeError
  | attributeError
  | eofError
  | jsonError
  | calledProcessError
deriving DecidableEq

/-- An ordered Python dict (insertion order preserved, as in CPython). -/
abbrev PyDict := List (String × Value)

/-- First value bound to a key, if any (`d[k]` / `d.get(k)` lookup core). -/
def pyLookup (d : PyDict) (k : String) : Option Value :=
  match d with
  | [] => Option.none
  | (k', v) :: rest => if k' = k then some v else pyLookup rest k

/-- `d.get(k, dflt)`. -/
def pyGetD (d : PyDict) (k : String) (dflt : Value) : Value :=
  (pyLookup d k).getD dflt

/-- `d[k]`, raising `KeyError` when absent. -/
def pyIndexD (d : PyDict) (k : String) : Except PyErr Value :=
  match pyLookup d k with
  | some v => .ok v
  | Option.none => .error .keyError

/-- Replace the value of `k` in place if present, else append `(k, v)` —
one step of `{**a, **b}` merging (CPython dict update semantics). -/
def updateOne (d : PyDict) (k : String) (v : Value) : PyDict :=
  match d with
  | [] => [(k, v)]
  | (k', v') :: rest =>
    if k' = k then (k', v) :: rest else (k', v') :: updateOne rest k v

/-- `{**d, **e}`: later keys override, insertion order of `d` kept. -/
def pyUpdate (d e : PyDict) : PyDict :=
  e.foldl (fun acc kv => updateOne acc kv.1 kv.2) d

/-- The keys of a dict, in order. -/
def dictKeys (d : PyDict) : List String := d.map (fun kv => kv.1)

/-- Python truthiness for the modelled values. -/
def truthy : Value → Bool
  | .none => false
  | .bool b => b
  | .str s => !s.data.isEmpty
  | .list xs => !xs.isEmpty

mutual

/-- `repr` of a value (as used by `str()` on lists); apostrophes around strings. -/
def pyRepr : Value → String
  | .none => "None"
  | .bool true => "True"
  | .bool false => "False"
  | .str s => String.singleton (Char.ofNat 39) ++ s ++ String.singleton (Char.ofNat 39)
  | .list xs => "[" ++ String.intercalate ", " (pyReprList xs) ++ "]"

/-- `repr` of each element of a list of values. -/
def pyReprList : List Value → List String
  | [] => []
  | v :: vs => pyRepr v :: pyReprList vs

end

/-- Python `str()` of a value (`f"{v}"` formatting). -/
def pyStr : Value → String
  | .str s => s
  | v => pyRepr v

/-- `.lower()` attribute access: only strings have it. -/
def asStr : Value → Except PyErr String
  | .str s => .ok s
  | _ => .error .attributeError

/-- `v[:n]` slicing: defined for strings and lists, `TypeError` otherwise. -/
def pySlice (n : Nat) : Value → Except PyErr Value
  | .str s => .ok (.str (String.mk (s.data.take n)))
  | .list xs => .ok (.list (xs.take n))
  | _ => .error .typeError

/-- `len(v)` for strings and lists, `TypeError` otherwise. -/
def pyLen : Value → Except PyErr Nat
  | .str s => .ok s.data.length
  | .list xs => .ok xs.length
  | _ => .error .typeError

/-- `v[0]`: first element of a list or first character of a string. -/
def pyIndex0 : Value → Except PyErr Value
  | .list [] => .error .indexError
  | .list (x :: _) => .ok x
  | .str s =>
    match s.data with
    | [] => .error .indexError
    | c :: _ => .ok (.str (String.singleton c))
  | _ => .error .typeError

/-- ASCII lowercase of a string (Python `str.lower` on the inputs used here). -/
def pyLowerStr (s : String) : String := String.mk (s.data.map Char.toLower)

/-- ASCII uppercase of a string (Python `str.upper` on the inputs used here). -/
def pyUpperStr (s : String) : String := String.mk (s.data.map Char.toUpper)

/-- Python `\s` whitespace class (ASCII fragment). -/
def isPySpace (c : Char) : Bool :=
  c = ' ' || c = '\t' || c = '\n' || c = '\x0d' || c = '\x0b' || c = '\x0c'

/-- Python `\d` digit class (ASCII fragment). -/
def isPyDigit (c : Char) : Bool := '0' ≤ c && c ≤ '9'

/-- The `[A-Z_]` character class. -/
def isUpperUnd (c : Char) : Bool := ('A' ≤ c && c ≤ 'Z') || c = '_'

/-- Python `\w` word class (ASCII fragment). -/
def isWordChar (c : Char) : Bool :=
  ('a' ≤ c && c ≤ 'z') || ('A' ≤ c && c ≤ 'Z') || isPyDigit c || c = '_'

/-- The `[a-z]` class. -/
def isLowerAlpha (c : Char) : Bool := 'a' ≤ c && c ≤ 'z'

/-- The `[a-z0-9-]` class kept by service-name normalization. -/
def isNameChar (c : Char) : Bool := isLowerAlpha c || isPyDigit c || c = '-'

/-- `re.sub(r'[^a-z0-9-]', '', s)`: strip every character outside the class. -/
def normalize (s : String) : String := String.mk (s.data.filter isNameChar)

/-- Python `s.split(sep)` for a one-character separator (empty parts kept,
`''.split(sep) == ['']`). -/
def splitOnChar (sep : Char) : List Char → List (List Char)
  | [] => [[]]
  | c :: t =>
    let r := splitOnChar sep t
    if c = sep then [] :: r
    else
      match r with
      | [] => [[c]]
      | h :: rt => (c :: h) :: rt

/-- String-level wrapper of `splitOnChar`. -/
def pySplit (sep : Char) (s : String) : List String := (splitOnChar sep s.data).map String.mk

/-- Strip leading and trailing whitespace (Python `str.strip()`). -/
def pyStrip (l : List Char) : List Char :=
  ((l.dropWhile isPySpace).reverse.dropWhile isPySpace).reverse

/-- Count the positions at which `pat` occurs in `s` (literal substring). -/
def countOccs (pat : List Char) : List Char → Nat
  | [] => 0
  | c :: t => (if pat <+: (c :: t) then 1 else 0) + countOccs pat t

/-- Does the literal `pat` occur anywhere in `s`? (Python `pat in s`.) -/
def containsSub (pat : List Char) : List Char → Bool
  | [] => decide (pat = [])
  | c :: t => pat <+: (c :: t) || containsSub pat t

/-- `re.sub(lit, repl, s, count=1)` for a literal pattern: replace the first
occurrence of `pat` by `repl`, or return `s` unchanged when absent. -/
def subFirst (pat repl : List Char) : List Char → List Char
  | [] => []
  | c :: t =>
    if pat <+: (c :: t) then repl ++ (c :: t).drop pat.length
    else c :: subFirst pat repl t

/-- String-level wrapper of `countOccs`. -/
def countOccsS (pat s : String) : Nat := countOccs pat.data s.data

/-- String-level wrapper of `containsSub`. -/
def containsSubS (pat s : String) : Bool := containsSub pat.data s.data

/-- String-level wrapper of `subFirst`. -/
def subFirstS (pat repl s : String) : String := String.mk (subFirst pat.data repl.data s.data)

/-- Python `s.replace(pat, rep)` (all non-overlapping occurrences, left to
right); fuel-bounded recursion, `fuel = s.length` always suffices. -/
def replaceAllAux (pat rep : List Char) : Nat → List Char → List Char
  | _, [] => []
  | 0, s => s
  | fuel + 1, c :: t =>
    if pat <+: (c :: t) then rep ++ replaceAllAux pat rep fuel ((c :: t).drop pat.length)
    else c :: replaceAllAux pat rep fuel t

/-- Python `s.replace(pat, rep)` for nonempty `pat`. -/
def replaceAll (pat rep s : String) : String :=
  String.mk (replaceAllAux pat.data rep.data s.data.length s.data)

/-- `re.findall` driver: scan left to right, at each position attempt `tryM`
(which returns the captured group and the remainder after the whole match);
on failure advance one character. `fuel = s.length` is always enough because
every step consumes at least one character. -/
def findallAux (tryM : List Char → Option (List Char × List Char)) :
    Nat → List Char → List (List Char)
  | _, [] => []
  | 0, _ => []
  | fuel + 1, c :: t =>
    match tryM (c :: t) with
    | some (cap, rest) => cap :: findallAux tryM fuel rest
    | Option.none => findallAux tryM fuel t

/-- One attempt of `LIT\s+(CLASS+)` at the head of `s` (greedy runs; regex
backtracking never helps because the separator and capture classes are
disjoint). Used for `EXPOSE\s+(\d+)` and `ENV\s+([A-Z_]+)`. -/
def tryLitClassRun (lit : List Char) (isSep isCap : Char → Bool) (s : List Char) :
    Option (List Char × List Char) :=
  if lit <+: s then
    let r1 := s.drop lit.length
    let sep := r1.takeWhile isSep
    if sep.isEmpty then Option.none
    else
      let r2 := r1.drop sep.length
      let cap := r2.takeWhile isCap
      if cap.isEmpty then Option.none
      else some (cap, r2.drop cap.length)
  else Option.none

/-- `re.findall(r'EXPOSE\s+(\d+)', content)`. -/
def exposedPortsOf (content : String) : List String :=
  (findallAux (tryLitClassRun "EXPOSE".data isPySpace isPyDigit)
    content.data.length content.data).map String.mk

/-- `re.findall(r'ENV\s+([A-Z_]+)', content)`. -/
def dockerfileEnvVarsOf (content : String) : List String :=
  (findallAux (tryLitClassRun "ENV".data isPySpace isUpperUnd)
    content.data.length content.data).map String.mk

/-- One attempt of `\s{2}(\w+):` at the head of `s` (the `^` anchor is checked
by the caller). -/
def tryServiceAt (s : List Char) : Option (List Char × List Char) :=
  match s with
  | a :: b :: r =>
    if isPySpace a && isPySpace b then
      let cap := r.takeWhile isWordChar
      if cap.isEmpty then Option.none
      else
        match r.drop cap.length with
        | ':' :: rest => some (cap, rest)
        | _ => Option.none
    else Option.none
  | _ => Option.none

/-- `re.findall(r'^\s{2}(\w+):', content, re.MULTILINE)`: matches may only
start at the beginning of the string or right after a newline. -/
def findServicesAux : Nat → Bool → List Char → List (List Char)
  | _, _, [] => []
  | 0, _, _ => []
  | fuel + 1, atStart, c :: t =>
    if atStart then
      match tryServiceAt (c :: t) with
      | some (cap, rest) => cap :: findServicesAux fuel false rest
      | Option.none => findServicesAux fuel (c = '\n') t
    else findServicesAux fuel (c = '\n') t

/-- The service names extracted from a compose manifest. -/
def servicesOf (content : String) : List String :=
  (findServicesAux content.data.length true content.data).map String.mk

/-- One attempt of `- ["\']?(\d+):` at the head of `s`. -/
def tryComposePort (s : List Char) : Option (List Char × List Char) :=
  match s with
  | '-' :: ' ' :: r =>
    let r' :=
      match r with
      | q :: rr => if q = '"' || q = Char.ofNat 39 then rr else q :: rr
      | [] => []
    let cap := r'.takeWhile isPyDigit
    if cap.isEmpty then Option.none
    else
      match r'.drop cap.length with
      | ':' :: rest => some (cap, rest)
      | _ => Option.none
  | _ => Option.none

/-- `re.findall(r'- ["\']?(\d+):', content)`. -/
def composePortsOf (content : String) : List String :=
  (findallAux tryComposePort content.data.length content.data).map String.mk

/-- Regex backtracking for `\s+(.+)` when the greedy whitespace run reaches
the end of the input: give characters back to `.+`, longest `\s+` first. The
argument is the length of the whitespace run still granted to `\s+`. -/
def backtrackLineAux (w : List Char) : Nat → Option (List Char)
  | 0 => Option.none
  | k + 1 =>
    match w.drop (k + 1) with
    | c :: r =>
      if c = '\n' then backtrackLineAux w k
      else some ((c :: r).takeWhile (fun x => decide (x ≠ '\n')))
    | [] => backtrackLineAux w k

/-- The `\s+(.+)` continuation shared by `image:\s+(.+)` and `^#\s+(.+)$`:
at least one whitespace character (greedy, may cross newlines), then the
captured rest of the line (at least one non-newline character). -/
def spacesThenRestOfLine (tail : List Char) : Option (List Char) :=
  let w := tail.takeWhile isPySpace
  if w.isEmpty then Option.none
  else
    match tail.drop w.length with
    | [] => backtrackLineAux w (w.length - 1)
    | c :: r => some ((c :: r).takeWhile (fun x => decide (x ≠ '\n')))

/-- `re.search(r'image:\s+(.+)', content)`: leftmost occurrence whose
continuation succeeds wins; on failure the scan advances one character. -/
def searchImageAux : List Char → Option (List Char)
  | [] => Option.none
  | c :: t =>
    if "image:".data <+: (c :: t) then
      match spacesThenRestOfLine ((c :: t).drop 6) with
      | some cap => some cap
      | Option.none => searchImageAux t
    else searchImageAux t

/-- The `image` analysis value: `match.group(1).strip()` or `None`. -/
def imageValueOf (content : String) : Value :=
  match searchImageAux content.data with
  | some cap => .str (String.mk (pyStrip cap))
  | Option.none => Value.none

/-- `re.search(r'^#\s+(.+)$', content, re.MULTILINE)`: a `#` at a line start,
whitespace, then the rest of the line. -/
def searchTitleAux : Bool → List Char → Option (List Char)
  | _, [] => Option.none
  | atStart, c :: t =>
    if atStart && c = '#' then
      match spacesThenRestOfLine t with
      | some cap => some cap
      | Option.none => searchTitleAux false t
    else searchTitleAux (c = '\n') t

/-- Does `(?:\n\n|\Z)` hold at this position (first alternative only; the
end-of-input case is handled by the consumer)? -/
def descStop : List Char → Bool
  | '\n' :: '\n' :: _ => true
  | _ => false

/-- Non-greedy expansion of `(.+?)` (dot-matches-all) up to `\n\n` or the end
of the input, after the first character has been consumed. -/
def descTakeAux : List Char → List Char
  | [] => []
  | c :: t => if descStop (c :: t) then [] else c :: descTakeAux t

/-- `re.search(r'\n\n(.+?)(?:\n\n|\Z)', content, re.DOTALL)`. -/
def searchDescAux : List Char → Option (List Char)
  | '\n' :: '\n' :: d :: r => some (d :: descTakeAux r)
  | _ :: t => searchDescAux t
  | [] => Option.none

/-- The `\s+Environment Variables` continuation of the README section header
(case-insensitive literal), returning the remainder after the literal. -/
def tryEnvHeaderSpaces (r : List Char) : Option (List Char) :=
  let w := r.takeWhile isPySpace
  if w.isEmpty then Option.none
  else
    let r2 := r.drop w.length
    if (r2.take 21).map Char.toLower = "environment variables".data then some (r2.drop 21)
    else Option.none

/-- One attempt of `##?\s+Environment Variables` at the head of `s`
(`##?` is greedy; when two hashes are present the single-hash alternative
cannot succeed because `\s+` would have to match `#`). -/
def tryEnvHeader (s : List Char) : Option (List Char) :=
  match s with
  | '#' :: '#' :: r2 => tryEnvHeaderSpaces r2
  | '#' :: r => tryEnvHeaderSpaces r
  | _ => Option.none

/-- The lookahead `(?=\n##?\s+|\Z)` (first alternative only). -/
def envSecStop : List Char → Bool
  | '\n' :: '#' :: '#' :: c :: _ => isPySpace c
  | '\n' :: '#' :: c :: _ => decide (c ≠ '#') && isPySpace c
  | _ => false

/-- Non-greedy expansion of `(.*?)` up to the next section header or the end
of the input. -/
def envSecTakeAux : List Char → List Char
  | [] => []
  | c :: t => if envSecStop (c :: t) then [] else c :: envSecTakeAux t

/-- `re.search(r'##?\s+Environment Variables(.*?)(?=\n##?\s+|\Z)', content,
re.DOTALL | re.IGNORECASE)`, returning the captured section body. -/
def searchEnvSecAux : List Char → Option (List Char)
  | [] => Option.none
  | c :: t =>
    match tryEnvHeader (c :: t) with
    | some rest => some (envSecTakeAux rest)
    | Option.none => searchEnvSecAux t

/-- One attempt of `` ([A-Z_]+) `` between backticks at the head of `s`. -/
def tryBacktickVar (s : List Char) : Option (List Char × List Char) :=
  match s with
  | c :: r =>
    if c = Char.ofNat 96 then
      let cap := r.takeWhile isUpperUnd
      if cap.isEmpty then Option.none
      else
        match r.drop cap.length with
        | d :: rest => if d = Char.ofNat 96 then some (cap, rest) else Option.none
        | [] => Option.none
    else Option.none
  | [] => Option.none

/-- The lookahead `(?=\n  [a-z]|\Z)` (first alternative only). -/
def composeEnvStop : List Char → Bool
  | '\n' :: ' ' :: ' ' :: c :: _ => isLowerAlpha c
  | _ => false

/-- Non-greedy expansion of `(.*?)` up to the next two-space-indented
lowercase key or the end of the input. -/
def composeEnvTakeAux : List Char → List Char
  | [] => []
  | c :: t => if composeEnvStop (c :: t) then [] else c :: composeEnvTakeAux t

/-- `re.search(r'environment:(.*?)(?=\n  [a-z]|\Z)', content, re.DOTALL)`. -/
def searchComposeEnvAux : List Char → Option (List Char)
  | [] => Option.none
  | c :: t =>
    if "environment:".data <+: (c :: t) then some (composeEnvTakeAux ((c :: t).drop 12))
    else searchComposeEnvAux t

/-- One attempt of `- ([A-Z_]+)(?:=|:)` at the head of `s`. -/
def tryComposeEnvVar (s : List Char) : Option (List Char × List Char) :=
  match s with
  | '-' :: ' ' :: r =>
    let cap := r.takeWhile isUpperUnd
    if cap.isEmpty then Option.none
    else
      match r.drop cap.length with
      | c :: rest => if c = '=' || c = ':' then some (cap, rest) else Option.none
      | [] => Option.none
  | _ => Option.none

/-- The environment-variable names extracted from the compose `environment:`
block, or `[]` when the block is absent. -/
def composeEnvVarsOf (content : String) : List String :=
  match searchComposeEnvAux content.data with
  | Option.none => []
  | some grp => (findallAux tryComposeEnvVar grp.length grp).map String.mk

/-- The backtick-quoted variable names in the README environment section, or
`[]` when the section is absent. -/
def docEnvVarsOf (content : String) : List String :=
  match searchEnvSecAux content.data with
  | Option.none => []
  | some grp => (findallAux tryBacktickVar grp.length grp).map String.mk

/-- A parsed `package.json`, restricted to the fields the program reads
(`data.get` of a missing key yields `Value.none`). -/
structure PkgJson where
  name : Value
  description : Value
  version : Value

/-- The repository contents the analyzer inspects: each candidate file is
either absent or a string; `package.json`, when present, is either valid
(already parsed, modelling `json.load`) or invalid (`json.load` raises). -/
structure Repo where
  dockerfile : Option String
  composeYml : Option String
  composeYaml : Option String
  readmeMd : Option String
  readmeLowerMd : Option String
  readmeNoExt : Option String
  readmeTxt : Option String
  packageJson : Option (Except Unit PkgJson)

/-- `ServiceAnalyzer.analyze_dockerfile`: `{}` when no Dockerfile, else the
three-key dict built from the `EXPOSE` and `ENV` scans. -/
def analyze_dockerfile (r : Repo) : PyDict :=
  match r.dockerfile with
  | Option.none => []
  | some content =>
    [("has_dockerfile", .bool true),
     ("exposed_ports", .list ((exposedPortsOf content).map Value.str)),
     ("env_vars", .list ((dockerfileEnvVarsOf content).map Value.str))]

/-- First existing compose file among `docker-compose.yml`,
`docker-compose.yaml` (name and content). -/
def findComposeFile (r : Repo) : Option (String × String) :=
  match r.composeYml with
  | some c => some ("docker-compose.yml", c)
  | Option.none =>
    match r.composeYaml with
    | some c => some ("docker-compose.yaml", c)
    | Option.none => Option.none

/-- `ServiceAnalyzer.analyze_docker_compose`. -/
def analyze_docker_compose (r : Repo) : PyDict :=
  match findComposeFile r with
  | Option.none => []
  | some (fname, content) =>
    [("has_docker_compose", .bool true),
     ("compose_file", .str fname),
     ("services", .list ((servicesOf content).map Value.str)),
     ("image", imageValueOf content),
     ("ports", .list ((composePortsOf content).map Value.str)),
     ("env_vars", .list ((composeEnvVarsOf content).map Value.str)),
     ("needs_postgres", .bool (containsSubS "postgres" (pyLowerStr content))),
     ("needs_redis", .bool (containsSubS "redis" (pyLowerStr content))),
     ("needs_mysql", .bool (containsSubS "mysql" (pyLowerStr content) ||
        containsSubS "mariadb" (pyLowerStr content)))]

/-- First existing README among `README.md`, `readme.md`, `README`,
`README.txt`. -/
def findReadmeFile (r : Repo) : Option String :=
  match r.readmeMd with
  | some c => some c
  | Option.none =>
    match r.readmeLowerMd with
    | some c => some c
    | Option.none =>
      match r.readmeNoExt with
      | some c => some c
      | Option.none => r.readmeTxt

/-- `' '.join(description.split('\n')[:3])[:200]`. -/
def descProcess (s : String) : String :=
  String.mk ((String.intercalate " " ((pySplit '\n' s).take 3)).data.take 200)

/-- `ServiceAnalyzer.analyze_readme` (`repoName` is `self.repo_name`, the
title fallback). -/
def analyze_readme (repoName : String) (r : Repo) : PyDict :=
  match findReadmeFile r with
  | Option.none => []
  | some content =>
    [("title",
      .str (match searchTitleAux true content.data with
            | some t => String.mk t
            | Option.none => repoName)),
     ("description",
      .str (descProcess (match searchDescAux content.data with
            | some d => String.mk (pyStrip d)
            | Option.none => ""))),
     ("has_docker_section", .bool (containsSubS "docker" (pyLowerStr content))),
     ("documented_env_vars", .list ((docEnvVarsOf content).map Value.str))]

/-- `ServiceAnalyzer.analyze_package_json`: `{}` when absent, the four-key
dict when `json.load` succeeds, an exception when it does not. -/
def analyze_package_json (r : Repo) : Except PyErr PyDict :=
  match r.packageJson with
  | Option.none => .ok []
  | some (.error _) => .error .jsonError
  | some (.ok p) =>
    .ok [("name", p.name), ("description", p.description), ("version", p.version),
         ("is_nodejs", .bool true)]

/-- `Path(url).stem` (pathlib: last meaningful component, final suffix
stripped when the dot is neither leading nor trailing). -/
def pathStem (url : String) : String :=
  let comps := (pySplit '/' url).filter (fun c => decide (c ≠ "") && decide (c ≠ "."))
  let name := comps.getLastD ""
  let cs := name.data
  match cs.reverse.findIdx? (fun c => c = '.') with
  | Option.none => name
  | some j =>
    let i := cs.length - 1 - j
    if 0 < i ∧ i < cs.length - 1 then String.mk (cs.take i) else name

/-- `url.split('/')[-2]`: `IndexError` (modelled as `Option.none`) when the
split has fewer than two parts. -/
def ownerOf (url : String) : Option String :=
  let ps := pySplit '/' url
  if ps.length ≥ 2 then some (ps.getD (ps.length - 2) "") else Option.none

/-- The analysis dict literal of `ServiceAnalyzer.run_analysis`: three base
repository keys, then the key-wise union of the four inspectors (later keys
override, CPython dict-literal semantics). -/
def run_analysis_merge (repoName owner url : String) (r : Repo) : Except PyErr PyDict :=
  match analyze_package_json r with
  | .error e => .error e
  | .ok dP =>
    .ok (pyUpdate (pyUpdate (pyUpdate (pyUpdate
      [("repo_name", .str repoName), ("repo_owner", .str owner), ("github_url", .str url)]
      (analyze_dockerfile r)) (analyze_docker_compose r)) (analyze_readme repoName r)) dP)

/-- `input()` on a scripted list of responses; `EOFError` when exhausted. -/
def nextInput : List String → Except PyErr (String × List String)
  | [] => .error .eofError
  | s :: rest => .ok (s, rest)

/-- Lines 227–228 of the integrate copy: the description preview evaluated
for the prompt text, `default_desc[:50] if default_desc else 'No description
available'` (it can raise on non-sliceable values). -/
def desc_preview_integrate (dd : Value) : Except PyErr Value :=
  if truthy dd then pySlice 50 dd else pure (Value.str "No description available")

/-- Lines 231–232 of the integrate copy: the internal-port default,
`ports_list = self.analysis.get('ports', []); ports_list[0] if ports_list
else '3000'`. -/
def default_port_integrate (d : PyDict) : Except PyErr Value :=
  let pl := pyGetD d "ports" (.list [])
  if truthy pl then pyIndex0 pl else pure (Value.str "3000")

/-- Line 230 of the src/scripts copy:
`self.analysis.get('ports', [None])[0] or '3000'`. -/
def default_port_scripts (d : PyDict) : Except PyErr Value := do
  let x ← pyIndex0 (pyGetD d "ports" (.list [Value.none]))
  pure (if truthy x then x else Value.str "3000")

/-- `ServiceIntegrator.interactive_config` of the integrate copy
(`scripts/integrate/analyze_and_integrate.py`): prompts are drawn from `ins`
(the empty string accepts the default); returns the confirmation decision and
`service_config`. Expressions Python evaluates only for prompt text but that
can raise (slices, `len`) are still evaluated in order. -/
def interactive_config (d : PyDict) (ins : List String) : Except PyErr (Bool × PyDict) := do
  let rn ← pyIndexD d "repo_name"
  let rns ← asStr rn
  let defaultName := replaceAll "_" "" (replaceAll "-" "" (pyLowerStr rns))
  let (i1, ins) ← nextInput ins
  let sname := normalize (if i1 = "" then defaultName else i1)
  let rn2 ← pyIndexD d "repo_name"
  let defaultDisplay := pyGetD d "title" rn2
  let (i2, ins) ← nextInput ins
  let display := if i2 = "" then defaultDisplay else Value.str i2
  let dv := pyGetD d "description" (.str "")
  let dd := if truthy dv then dv else Value.str ""
  let _pv ← desc_preview_integrate dd
  let _n ← pyLen dd
  let (i3, ins) ← nextInput ins
  let desc := if i3 = "" then dd else Value.str i3
  let dp ← default_port_integrate d
  let (i4, ins) ← nextInput ins
  let port := if i4 = "" then dp else Value.str i4
  let ow ← pyIndexD d "repo_owner"
  let rn3 ← pyIndexD d "repo_name"
  let di := pyGetD d "image" (.str (pyStr ow ++ "/" ++ pyStr rn3 ++ ":latest"))
  let (i5, ins) ← nextInput ins
  let image := if i5 = "" then di else Value.str i5
  let (i6, ins) ← nextInput ins
  let hostname := if i6 = "" then sname else i6
  let cfg : PyDict :=
    [("name", .str sname), ("display_name", display), ("description", desc),
     ("port", port), ("image", image), ("hostname", .str hostname),
     ("needs_postgres", pyGetD d "needs_postgres" (.bool false)),
     ("needs_redis", pyGetD d "needs_redis" (.bool false))]
  let (i7, _) ← nextInput ins
  pure (pyLowerStr i7 == "yes", cfg)

/-- `ServiceIntegrator.interactive_config` of the src/scripts copy
(`scripts/analyze_and_integrate.py`); it differs from the integrate copy in
the description-prompt expression (`default_desc[:50]` sliced
unconditionally) and the port default (`.get('ports', [None])[0] or '3000'`). -/
def interactive_config_s (d : PyDict) (ins : List String) : Except PyErr (Bool × PyDict) := do
  let rn ← pyIndexD d "repo_name"
  let rns ← asStr rn
  let defaultName := replaceAll "_" "" (replaceAll "-" "" (pyLowerStr rns))
  let (i1, ins) ← nextInput ins
  let sname := normalize (if i1 = "" then defaultName else i1)
  let rn2 ← pyIndexD d "repo_name"
  let defaultDisplay := pyGetD d "title" rn2
  let (i2, ins) ← nextInput ins
  let display := if i2 = "" then defaultDisplay else Value.str i2
  let dd := pyGetD d "description" (.str "")
  let _pv ← pySlice 50 dd
  let (i3, ins) ← nextInput ins
  let desc := if i3 = "" then dd else Value.str i3
  let dp ← default_port_scripts d
  let (i4, ins) ← nextInput ins
  let port := if i4 = "" then dp else Value.str i4
  let ow ← pyIndexD d "repo_owner"
  let rn3 ← pyIndexD d "repo_name"
  let di := pyGetD d "image" (.str (pyStr ow ++ "/" ++ pyStr rn3 ++ ":latest"))
  let (i5, ins) ← nextInput ins
  let image := if i5 = "" then di else Value.str i5
  let (i6, ins) ← nextInput ins
  let hostname := if i6 = "" then sname else i6
  let cfg : PyDict :=
    [("name", .str sname), ("display_name", display), ("description", desc),
     ("port", port), ("image", image), ("hostname", .str hostname),
     ("needs_postgres", pyGetD d "needs_postgres" (.bool false)),
     ("needs_redis", pyGetD d "needs_redis" (.bool false))]
  let (i7, _) ← nextInput ins
  pure (pyLowerStr i7 == "yes", cfg)

/-- The generated compose service stanza (both copies build the identical
block, including the conditional `depends_on` entries). -/
def service_block (name image : String) (pg rd : Bool) : String :=
  "\n  " ++ name ++ ":\n    image: " ++ image ++ "\n    container_name: " ++ name ++
  "\n    profiles: [\"" ++ name ++ "\"]\n    restart: unless-stopped\n    environment:\n      APP_URL: $\x7b" ++
  pyUpperStr name ++ "_HOSTNAME:+https://\x7d$\x7b" ++ pyUpperStr name ++ "_HOSTNAME\x7d\n" ++
  (if pg || rd then
    "    depends_on:\n" ++
    (if pg then "      postgres:\n        condition: service_healthy\n" else "") ++
    (if rd then "      redis:\n        condition: service_healthy\n" else "")
  else "")

/-- The new-volume key inserted under `volumes:` (`f"  {volume_name}:\n"`
with `volume_name = f"{name}_data"`). -/
def volume_line (name : String) : String := "  " ++ name ++ "_data:\n"

/-- `ServiceIntegrator.add_to_docker_compose` (integrate copy) as a content
transformation: append the service stanza, then
`re.sub(r'(volumes:\n)', f'\\1  {volume_name}:\n', content, count=1)`. -/
def add_to_docker_compose_content (name image : String) (pg rd : Bool) (content : String) : String :=
  subFirstS "volumes:\n" ("volumes:\n" ++ volume_line name)
    (content ++ service_block name image pg rd)

/-- `ServiceIntegrator.add_to_docker_compose` of the src/scripts copy (its
body is line-for-line the same as the integrate copy's). -/
def add_to_docker_compose_content_s (name image : String) (pg rd : Bool) (content : String) : String :=
  subFirstS "volumes:\n" ("volumes:\n" ++ volume_line name)
    (content ++ service_block name image pg rd)

/-- Target path of `add_to_docker_compose`, both copies. -/
def docker_compose_path : String := "docker-compose.yml"

/-- `add_to_env_example` content transformation, integrate copy (empty
description falls back to `'Service configuration'`). -/
def add_to_env_example_content (name display desc hostname : String) (content : String) : String :=
  let descriptionLine := if desc ≠ "" then String.mk (desc.data.take 100) else "Service configuration"
  content ++ "\n############\n# " ++ display ++ " Configuration\n# " ++ descriptionLine ++
  "\n############\n" ++ pyUpperStr name ++ "_HOSTNAME=" ++ hostname ++ ".yourdomain.com\n" ++
  pyUpperStr name ++ "_APP_SECRET=\n"

/-- `add_to_env_example` content transformation, src/scripts copy (the
description is sliced to 100 characters unconditionally). -/
def add_to_env_example_content_s (name display desc hostname : String) (content : String) : String :=
  content ++ "\n############\n# " ++ display ++ " Configuration\n# " ++ String.mk (desc.data.take 100) ++
  "\n############\n" ++ pyUpperStr name ++ "_HOSTNAME=" ++ hostname ++ ".yourdomain.com\n" ++
  pyUpperStr name ++ "_APP_SECRET=\n"

/-- Target path of `add_to_env_example`, both copies. -/
def env_example_path : String := ".env.example"

/-- The appended Caddyfile routing block (identical text in both copies). -/
def caddy_block (name display port : String) : String :=
  "\n# " ++ display ++ "\n\x7b" ++ pyUpperStr name ++ "_HOSTNAME\x7d \x7b\n    reverse_proxy " ++
  name ++ ":" ++ port ++ "\n\x7d\n"

/-- `add_to_caddyfile` content transformation, integrate copy. -/
def add_to_caddyfile_content (name display port : String) (content : String) : String :=
  content ++ caddy_block name display port

/-- `add_to_caddyfile` content transformation, src/scripts copy. -/
def add_to_caddyfile_content_s (name display port : String) (content : String) : String :=
  content ++ caddy_block name display port

/-- Target path of `add_to_caddyfile` in the integrate copy
(`project_root / 'config' / 'caddy' / 'Caddyfile'`). -/
def caddyfile_path_integrate : String := "config/caddy/Caddyfile"

/-- Target path of `add_to_caddyfile` in the src/scripts copy
(`project_root / 'Caddyfile'`). -/
def caddyfile_path_scripts : String := "Caddyfile"

/-- `f'    "{name}" "{display}"\n'`, the wizard menu entry line. -/
def wizard_service_line (name display : String) : String :=
  "    \"" ++ name ++ "\" \"" ++ display ++ "\"\n"

/-- Non-greedy `.*?")` `\n` continuation of `("outline" ".*?")\n` after the
anchor literal: consume non-newline characters until a quote directly
followed by a newline; returns the middle and the remainder after the
newline. -/
def entryEnd : List Char → Option (List Char × List Char)
  | '"' :: '\n' :: rest => some ([], rest)
  | c :: t =>
    if c = '\n' then Option.none
    else (entryEnd t).map (fun p => (c :: p.1, p.2))
  | [] => Option.none

/-- `re.sub(r'("<a>" ".*?")\n', f'\\1\n{line}', content, count=1)` with
`anchorLit` the literal prefix `"<a>" "` of the pattern. -/
def subAfterEntry (anchorLit sline : List Char) : List Char → List Char
  | [] => []
  | c :: t =>
    if anchorLit <+: (c :: t) then
      match entryEnd ((c :: t).drop anchorLit.length) with
      | some (mid, rest) => anchorLit ++ mid ++ '"' :: '\n' :: (sline ++ rest)
      | Option.none => c :: subAfterEntry anchorLit sline t
    else c :: subAfterEntry anchorLit sline t

/-- `re.sub(r'(<lit>[^)]+)', f'\\1\n{line}', content, count=1)` for a literal
prefix `lit`: at the first position where `lit` matches and is followed by at
least one non-`)` character, the greedy `[^)]+` runs to just before the first
`)` (or to the end of the input) and `\n` plus the new line are inserted
after it. -/
def fallbackRunSub (lit sline : List Char) : List Char → List Char
  | [] => []
  | c :: t =>
    if lit <+: (c :: t) then
      let afterLit := (c :: t).drop lit.length
      let run := afterLit.takeWhile (fun x => decide (x ≠ ')'))
      if run.isEmpty then c :: fallbackRunSub lit sline t
      else lit ++ run ++ '\n' :: (sline ++ afterLit.drop run.length)
    else c :: fallbackRunSub lit sline t

/-- The wizard fallback
`re.sub(r'(\nbase_services_data=\([^)]+)', f'\\1\n{line}', content, count=1)`. -/
def wizardFallbackSub (sline : List Char) (s : List Char) : List Char :=
  fallbackRunSub "\nbase_services_data=(".data sline s

/-- `ServiceIntegrator.add_to_wizard` content transformation (integrate copy
only): anchor after the `"outline"` entry line, else after `"docmost"`, else
fall back to the `base_services_data` block. -/
def add_to_wizard_content (name display : String) (content : String) : String :=
  let sline := wizard_service_line name display
  if containsSubS "\"outline\"" content then
    String.mk (subAfterEntry "\"outline\" \"".data sline.data content.data)
  else if containsSubS "\"docmost\"" content then
    String.mk (subAfterEntry "\"docmost\" \"".data sline.data content.data)
  else
    String.mk (wizardFallbackSub sline.data content.data)

/-- `f'    ["{NAME}_APP_SECRET"]="hex:64"\n'`. -/
def secret_line (name : String) : String :=
  "    [\"" ++ pyUpperStr name ++ "_APP_SECRET\"]=\"hex:64\"\n"

/-- `ServiceIntegrator.add_to_secrets` content transformation (integrate copy
only). -/
def add_to_secrets_content (name : String) (content : String) : String :=
  let sline := secret_line name
  if containsSubS "OUTLINE_APP_SECRET" content then
    subFirstS "[\"OUTLINE_APP_SECRET\"]=\"hex:64\"\n"
      ("[\"OUTLINE_APP_SECRET\"]=\"hex:64\"\n" ++ sline) content
  else if containsSubS "DOCMOST_APP_SECRET" content then
    subFirstS "[\"DOCMOST_APP_SECRET\"]=\"hex:64\"\n"
      ("[\"DOCMOST_APP_SECRET\"]=\"hex:64\"\n" ++ sline) content
  else
    subFirstS "\n)" (sline ++ "\n)") content

/-- The generated final-report section. -/
def report_block (name display desc : String) : String :=
  "\nif is_profile_active \"" ++ name ++ "\"; then\n  echo\n  echo \"================================= " ++
  display ++ " ============================\"\n  echo\n  echo \"Host: $\x7b" ++ pyUpperStr name ++
  "_HOSTNAME:-<hostname_not_set>\x7d\"\n  echo \"Description: " ++ desc ++
  "\"\n  echo\n  echo \"First Time Setup:\"\n  echo \"  - Visit https://$\x7b" ++ pyUpperStr name ++
  "_HOSTNAME:-<hostname_not_set>\x7d\"\n  echo \"  - Create your admin account\"\nfi\n"

/-- Non-greedy `.*?^fi` (MULTILINE and DOTALL): consume any characters until
`fi` at a line start, returning the middle and the remainder after `fi`. -/
def scanToFi : Bool → List Char → Option (List Char × List Char)
  | _, [] => Option.none
  | atStart, c :: t =>
    if atStart && "fi".data <+: (c :: t) then some ([], (c :: t).drop 2)
    else (scanToFi (c = '\n') t).map (fun p => (c :: p.1, p.2))

/-- `re.sub(r'(if is_profile_active "<a>"; then.*?^fi)', f'\\1\n{block}',
content, count=1, flags=re.MULTILINE | re.DOTALL)`. -/
def subAfterProfileBlock (lit block : List Char) : List Char → List Char
  | [] => []
  | c :: t =>
    if lit <+: (c :: t) then
      match scanToFi false ((c :: t).drop lit.length) with
      | some (mid, rest) => lit ++ mid ++ 'f' :: 'i' :: '\n' :: (block ++ rest)
      | Option.none => c :: subAfterProfileBlock lit block t
    else c :: subAfterProfileBlock lit block t

/-- `ServiceIntegrator.add_to_final_report` content transformation (integrate
copy only): after the `outline` block, else after the `docmost` block, else
before `paddleocr`, else before `python-runner`, else unchanged. -/
def add_to_final_report_content (name display desc : String) (content : String) : String :=
  let blk := report_block name display desc
  if containsSubS "is_profile_active \"outline\"" content then
    String.mk (subAfterProfileBlock "if is_profile_active \"outline\"; then".data blk.data content.data)
  else if containsSubS "is_profile_active \"docmost\"" content then
    String.mk (subAfterProfileBlock "if is_profile_active \"docmost\"; then".data blk.data content.data)
  else if containsSubS "is_profile_active \"paddleocr\"" content then
    subFirstS "if is_profile_active \"paddleocr\""
      (blk ++ "\n" ++ "if is_profile_active \"paddleocr\"") content
  else if containsSubS "is_profile_active \"python-runner\"" content then
    subFirstS "if is_profile_active \"python-runner\""
      (blk ++ "\n" ++ "if is_profile_active \"python-runner\"") content
  else content

/-- The contents of the six target files the Integrator rewrites. -/
structure TargetFiles where
  dockerCompose : String
  envExample : String
  caddyfile : String
  wizard : String
  secrets : String
  finalReport : String
deriving DecidableEq

/-- `add_to_docker_compose` at the `service_config`-dict level: the f-string
formats `name`/`image` with `str()`, and calls `.upper()` on `name` (which
must therefore be a string); the dependency flags are used for truthiness. -/
def add_to_docker_compose_d (cfg : PyDict) (t : TargetFiles) : Except PyErr TargetFiles := do
  let name ← asStr (← pyIndexD cfg "name")
  let imageV ← pyIndexD cfg "image"
  let pg := truthy (← pyIndexD cfg "needs_postgres")
  let rd := truthy (← pyIndexD cfg "needs_redis")
  pure { t with dockerCompose :=
    add_to_docker_compose_content name (pyStr imageV) pg rd t.dockerCompose }

/-- `add_to_env_example` (integrate copy) at the dict level:
`self.service_config['description'][:100] if self.service_config.get('description')
else 'Service configuration'`. -/
def add_to_env_example_d (cfg : PyDict) (t : TargetFiles) : Except PyErr TargetFiles := do
  let name ← asStr (← pyIndexD cfg "name")
  let displayV ← pyIndexD cfg "display_name"
  let dline ← if truthy (pyGetD cfg "description" Value.none) then do
      let s ← pySlice 100 (← pyIndexD cfg "description")
      pure (pyStr s)
    else pure "Service configuration"
  let hostV ← pyIndexD cfg "hostname"
  let newEnv :=
    t.envExample ++ "\n############\n# " ++ pyStr displayV ++ " Configuration\n# " ++ dline ++
    "\n############\n" ++ pyUpperStr name ++ "_HOSTNAME=" ++ pyStr hostV ++ ".yourdomain.com\n" ++
    pyUpperStr name ++ "_APP_SECRET=\n"
  pure { t with envExample := newEnv }

/-- `add_to_caddyfile` (integrate copy) at the dict level. -/
def add_to_caddyfile_d (cfg : PyDict) (t : TargetFiles) : Except PyErr TargetFiles := do
  let name ← asStr (← pyIndexD cfg "name")
  let displayV ← pyIndexD cfg "display_name"
  let portV ← pyIndexD cfg "port"
  pure { t with caddyfile := add_to_caddyfile_content name (pyStr displayV) (pyStr portV) t.caddyfile }

/-- `add_to_wizard` at the dict level (no `.upper()` call: any values format). -/
def add_to_wizard_d (cfg : PyDict) (t : TargetFiles) : Except PyErr TargetFiles := do
  let nv ← pyIndexD cfg "name"
  let dv ← pyIndexD cfg "display_name"
  pure { t with wizard := add_to_wizard_content (pyStr nv) (pyStr dv) t.wizard }

/-- `add_to_secrets` at the dict level. -/
def add_to_secrets_d (cfg : PyDict) (t : TargetFiles) : Except PyErr TargetFiles := do
  let name ← asStr (← pyIndexD cfg "name")
  pure { t with secrets := add_to_secrets_content name t.secrets }

/-- `add_to_final_report` at the dict level. -/
def add_to_final_report_d (cfg : PyDict) (t : TargetFiles) : Except PyErr TargetFiles := do
  let name ← asStr (← pyIndexD cfg "name")
  let dv ← pyIndexD cfg "display_name"
  let descV ← pyIndexD cfg "description"
  pure { t with finalReport :=
    add_to_final_report_content name (pyStr dv) (pyStr descV) t.finalReport }

/-- `ServiceIntegrator.integrate`: the six mutations in their fixed order; on
an exception the files already rewritten stay rewritten. -/
def integrate (cfg : PyDict) (t0 : TargetFiles) : TargetFiles × Option PyErr :=
  match add_to_docker_compose_d cfg t0 with
  | .error e => (t0, some e)
  | .ok t1 =>
    match add_to_env_example_d cfg t1 with
    | .error e => (t1, some e)
    | .ok t2 =>
      match add_to_caddyfile_d cfg t2 with
      | .error e => (t2, some e)
      | .ok t3 =>
        match add_to_wizard_d cfg t3 with
        | .error e => (t3, some e)
        | .ok t4 =>
          match add_to_secrets_d cfg t4 with
          | .error e => (t4, some e)
          | .ok t5 =>
            match add_to_final_report_d cfg t5 with
            | .error e => (t5, some e)
            | .ok t6 => (t6, Option.none)

/-- The external conditions of one `main` run: whether `git clone` succeeds,
the cloned repository contents, the scripted interactive responses, and the
initial target-file contents. -/
structure World where
  cloneOk : Bool
  repo : Repo
  inputs : List String
  files : TargetFiles

/-- How the process ends: a `return` code or an uncaught exception. -/
inductive ExitKind where
  | code (n : Nat)
  | uncaught (e : PyErr)
deriving DecidableEq

/-- Outcome of a `main` run: the exit, the final target files, whether the
clone workspace was created (`tempfile.mkdtemp` in `clone_repo`), whether
`ServiceAnalyzer.cleanup` ran, and whether the workspace directory is gone at
process exit. -/
structure MainResult where
  exit : ExitKind
  files : TargetFiles
  tempCreated : Bool
  cleanupRan : Bool
  tempRemoved : Bool

/-- `ServiceAnalyzer.run_analysis` including the clone step: `mkdtemp` always
precedes the `git clone` subprocess, which raises `CalledProcessError`
(`check=True`) when the fetch fails. -/
def run_analysis (url owner : String) (w : World) : Except PyErr PyDict :=
  if w.cloneOk then run_analysis_merge (pathStem url) owner url w.repo
  else .error .calledProcessError

/-- `main` after argument parsing: `ServiceAnalyzer.__init__` (which indexes
`url.split('/')[-2]` outside the `try`), then the `try` block with analysis,
the Docker-support gate, confirmation and integration, with
`analyzer.cleanup()` in the `finally` (the workspace exists whenever
`temp_dir` was set, so cleanup removes it on every path through the `try`). -/
def mainModel (url : String) (w : World) : MainResult :=
  match ownerOf url with
  | Option.none => ⟨.uncaught .indexError, w.files, false, false, false⟩
  | some owner =>
    match run_analysis url owner w with
    | .error e => ⟨.uncaught e, w.files, true, true, true⟩
    | .ok a =>
      if !truthy (pyGetD a "has_docker_compose" Value.none) &&
         !truthy (pyGetD a "has_dockerfile" Value.none) then
        ⟨.code 1, w.files, true, true, true⟩
      else
        match interactive_config a w.inputs with
        | .error e => ⟨.uncaught e, w.files, true, true, true⟩
        | .ok (conf, cfg) =>
          if conf then
            match integrate cfg w.files with
            | (t, Option.none) => ⟨.code 0, t, true, true, true⟩
            | (t, some e) => ⟨.uncaught e, t, true, true, true⟩
          else ⟨.code 1, w.files, true, true, true⟩

/-- A concrete repository on which inspector key sets collide. -/
def c1Repo : Repo :=
  { dockerfile := some "ENV FOO bar\nEXPOSE 80"
    composeYml := some "services:\n  app:\n    environment:\n      - BAZ=1"
    composeYaml := Option.none
    readmeMd := some "# Title\n\nSome description"
    readmeLowerMd := Option.none
    readmeNoExt := Option.none
    readmeTxt := Option.none
    packageJson := some (.ok ⟨.str "pkg", .str "pkg desc", .str "1.0"⟩) }

/-- The wizard file used in the C5 counterexample. -/
def c5Content : String := "x\nbase_services_data=(\n    \"a\" \"A\"\n)\nrest"

/-- A repository with none of the candidate files. -/
def emptyRepo : Repo :=
  ⟨Option.none, Option.none, Option.none, Option.none, Option.none, Option.none,
   Option.none, Option.none⟩

/-- Empty target-file contents. -/
def emptyFiles : TargetFiles := ⟨"", "", "", "", "", ""⟩

/-- Keys returned by the package-json inspector (`[]` when `json.load`
raises, as no dict is returned then). -/
def pkgJsonKeys (r : Repo) : List String :=
  match analyze_package_json r with
  | .ok d => dictKeys d
  | .error _ => []

/-- Bind in `Except` returns `ok` exactly when both stages do. -/
theorem except_bind_ok {α β : Type} (x : Except PyErr α) (f : α → Except PyErr β) (c : β) :
    (x >>= f) = .ok c ↔ ∃ a, x = .ok a ∧ f a = .ok c := by
  cases x with
  | error e => simp [Bind.bind, Except.bind]
  | ok a => simp [Bind.bind, Except.bind]

/-- A pattern no longer than `x` is a prefix of `x ++ u` iff it is a prefix
of `x`: the window does not reach into `u`. -/
theorem prefix_append_iff_of_le {pat x u : List Char} (h : pat.length ≤ x.length) :
    pat <+: x ++ u ↔ pat <+: x := by
  constructor
  · intro hp
    rw [List.prefix_iff_eq_take] at hp ⊢
    rwa [List.take_append_of_le_length h] at hp
  · intro hp
    exact hp.trans (List.prefix_append x u)

/-- An occurrence of a nonempty pattern anywhere makes the count positive. -/
theorem countOccs_pos (pat : List Char) (hpat : pat ≠ []) :
    ∀ (s : List Char) (j : Nat), pat <+: s.drop j → 1 ≤ countOccs pat s := by
  intro s
  induction s with
  | nil =>
    intro j hj
    simp only [List.drop_nil] at hj
    exact absurd (List.prefix_nil.mp hj) hpat
  | cons c t ih =>
    intro j hj
    cases j with
    | zero =>
      simp only [List.drop_zero] at hj
      simp [countOccs, hj]
    | succ j' =>
      have := ih j' (by simpa using hj)
      simp only [countOccs]
      omega

/-- Two occurrences of a nonempty pattern at distinct positions force a count
of at least two. -/
theorem countOccs_two (pat : List Char) (hpat : pat ≠ []) :
    ∀ (s : List Char) (j1 j2 : Nat), j1 < j2 →
      pat <+: s.drop j1 → pat <+: s.drop j2 → 2 ≤ countOccs pat s := by
  intro s
  induction s with
  | nil =>
    intro j1 j2 _ hj1 _
    simp only [List.drop_nil] at hj1
    exact absurd (List.prefix_nil.mp hj1) hpat
  | cons c t ih =>
    intro j1 j2 hlt hj1 hj2
    cases j1 with
    | zero =>
      simp only [List.drop_zero] at hj1
      obtain ⟨j2', rfl⟩ : ∃ j2', j2 = j2' + 1 := ⟨j2 - 1, by omega⟩
      have h2 := countOccs_pos pat hpat t j2' (by simpa using hj2)
      simp only [countOccs, if_pos hj1]
      omega
    | succ j1' =>
      obtain ⟨j2', rfl⟩ : ∃ j2', j2 = j2' + 1 := ⟨j2 - 1, by omega⟩
      have := ih j1' j2' (by omega) (by simpa using hj1) (by simpa using hj2)
      simp only [countOccs]
      omega

/-- Unfolding equation of `subFirst` on a nonempty input. -/
theorem subFirst_cons (pat repl : List Char) (c : Char) (t : List Char) :
    subFirst pat repl (c :: t) =
      if pat <+: (c :: t) then repl ++ (c :: t).drop pat.length
      else c :: subFirst pat repl t := by
  simp [subFirst]

/-- When a nonempty pattern has no occurrence before position `pre.length`,
`subFirst` rewrites exactly the occurrence sitting at that position. -/
theorem subFirst_at (pat repl : List Char) (hpat : pat ≠ []) :
    ∀ pre rest : List Char,
      (∀ j, j < pre.length → ¬ pat <+: (pre ++ pat ++ rest).drop j) →
      subFirst pat repl (pre ++ pat ++ rest) = pre ++ repl ++ rest := by
  intro pre
  induction pre with
  | nil =>
    intro rest _
    cases pat with
    | nil => exact absurd rfl hpat
    | cons p0 pt =>
      simp only [List.nil_append, List.cons_append, subFirst_cons]
      rw [if_pos (by rw [← List.cons_append]; exact List.prefix_append _ _)]
      rw [← List.cons_append, List.drop_left]
  | cons c p ih =>
    intro rest hno
    have h0 : ¬ pat <+: (c :: (p ++ pat ++ rest)) := by
      have := hno 0 (by simp)
      simpa [List.cons_append] using this
    have hno' : ∀ j, j < p.length → ¬ pat <+: (p ++ pat ++ rest).drop j := by
      intro j hj
      have := hno (j + 1) (by simpa using Nat.succ_lt_succ hj)
      simpa [List.cons_append] using this
    calc subFirst pat repl ((c :: p) ++ pat ++ rest)
        = subFirst pat repl (c :: (p ++ pat ++ rest)) := by simp [List.cons_append]
      _ = c :: subFirst pat repl (p ++ pat ++ rest) := by rw [subFirst_cons, if_neg h0]
      _ = c :: (p ++ repl ++ rest) := by rw [ih rest hno']
      _ = (c :: p) ++ repl ++ rest := by simp [List.cons_append]

/-- If the content `P ++ pat ++ S` contains exactly one occurrence of the
nonempty `pat`, there is no occurrence starting inside `P` in any extension
`P ++ pat ++ E`. -/
theorem no_early_occurrence (pat : List Char) (hpat : pat ≠ [])
    (P S E : List Char) (h1 : countOccs pat (P ++ pat ++ S) = 1) :
    ∀ j, j < P.length → ¬ pat <+: (P ++ pat ++ E).drop j := by
  intro j hj hpre
  have hjle : j ≤ (P ++ pat).length := by
    simp only [List.length_append]
    omega
  have hsplit : (P ++ pat ++ E).drop j = (P ++ pat).drop j ++ E :=
    List.drop_append_of_le_length hjle
  rw [hsplit] at hpre
  have hlen : pat.length ≤ ((P ++ pat).drop j).length := by
    simp only [List.length_drop, List.length_append]
    omega
  have hwin : pat <+: (P ++ pat).drop j := (prefix_append_iff_of_le hlen).mp hpre
  have hocc : pat <+: (P ++ pat ++ S).drop j := by
    rw [List.drop_append_of_le_length hjle]
    exact hwin.trans (List.prefix_append _ S)
  have hat : pat <+: (P ++ pat ++ S).drop P.length := by
    rw [List.append_assoc, List.drop_left]
    exact List.prefix_append _ _
  have := countOccs_two pat hpat (P ++ pat ++ S) j P.length hj hocc hat
  omega

/-- C7: the service-name normalization `re.sub(r'[^a-z0-9-]', '', s)` is a
total function whose output contains only lowercase letters, digits and
hyphens, and it is idempotent. -/
theorem c7_normalize_idempotent_and_closed (s : String) :
    normalize (normalize s) = normalize s ∧ (normalize s).data.all isNameChar = true := by
  constructor
  · simp only [normalize, List.filter_filter]
    congr 1
    apply List.filter_congr
    intro c _
    cases h : isNameChar c <;> simp [h]
  · simp only [normalize, List.all_eq_true]
    intro c hc
    exact (List.mem_filter.mp hc).2

/-- C8: when the final-report file contains none of the four
`is_profile_active` anchor substrings, `add_to_final_report` writes back
exactly the content it read. -/
theorem c8_final_report_no_anchor_unchanged (name display desc content : String)
    (h1 : containsSubS "is_profile_active \"outline\"" content = false)
    (h2 : containsSubS "is_profile_active \"docmost\"" content = false)
    (h3 : containsSubS "is_profile_active \"paddleocr\"" content = false)
    (h4 : containsSubS "is_profile_active \"python-runner\"" content = false) :
    add_to_final_report_content name display desc content = content := by
  simp [add_to_final_report_content, h1, h2, h3, h4]

/-- C8 witness: a concrete report file without any anchor is left unchanged. -/
theorem c8_witness :
    add_to_final_report_content "svc" "Svc" "desc" "echo done\n" = "echo done\n" :=
  c8_final_report_no_anchor_unchanged "svc" "Svc" "desc" "echo done\n"
    (by decide) (by decide) (by decide) (by decide)

/-- C1 counterexample: on `c1Repo` the dockerfile and compose inspectors both
produce the key `env_vars`, and the readme and package-json inspectors both
produce the key `description`, so the four key sets are not pairwise
disjoint. -/
theorem c1_counterexample :
    "env_vars" ∈ dictKeys (analyze_dockerfile c1Repo) ∧
    "env_vars" ∈ dictKeys (analyze_docker_compose c1Repo) ∧
    "description" ∈ dictKeys (analyze_readme "repo" c1Repo) ∧
    "description" ∈ pkgJsonKeys c1Repo := by
  decide

/-- C1 amended: the inspector key sets are pairwise disjoint except that
`env_vars` is produced by both the dockerfile and the compose inspector and
`description` by both the readme and the package-json inspector (so in
`run_analysis`'s merge those two keys are the only ones a later inspector can
overwrite). -/
theorem c1_amended_key_overlaps (repoName : String) (r : Repo) :
    ((dictKeys (analyze_dockerfile r)).inter (dictKeys (analyze_docker_compose r))).all
      (fun k => k == "env_vars") = true ∧
    ((dictKeys (analyze_dockerfile r)).inter (dictKeys (analyze_readme repoName r))).isEmpty = true ∧
    ((dictKeys (analyze_dockerfile r)).inter (pkgJsonKeys r)).isEmpty = true ∧
    ((dictKeys (analyze_docker_compose r)).inter (dictKeys (analyze_readme repoName r))).isEmpty = true ∧
    ((dictKeys (analyze_docker_compose r)).inter (pkgJsonKeys r)).isEmpty = true ∧
    ((dictKeys (analyze_readme repoName r)).inter (pkgJsonKeys r)).all
      (fun k => k == "description") = true := by
  rcases hd : r.dockerfile with _ | dfc <;>
  rcases hc : findComposeFile r with _ | ⟨fn, cc⟩ <;>
  rcases hr : findReadmeFile r with _ | rc <;>
  rcases hp : r.packageJson with _ | (e | p) <;>
  simp [analyze_dockerfile, analyze_docker_compose, analyze_readme, analyze_package_json,
        pkgJsonKeys, dictKeys, hd, hc, hr, hp, List.inter]

/-- C2: when the manifest contains exactly one occurrence of `volumes:\n`,
one run of `add_to_docker_compose` appends the service stanza and inserts
exactly one `  <name>_data:` line immediately after that occurrence (and
nowhere else), and a second run inserts its key after that same first
anchor, without failing. -/
theorem c2_volume_insertion (name image : String) (pg rd : Bool) (pre post : String)
    (hname : normalize name = name)
    (h1 : countOccsS "volumes:\n" (pre ++ "volumes:\n" ++ post) = 1) :
    add_to_docker_compose_content name image pg rd (pre ++ "volumes:\n" ++ post)
      = pre ++ "volumes:\n" ++ volume_line name ++
          (post ++ service_block name image pg rd)
    ∧ add_to_docker_compose_content name image pg rd
        (pre ++ "volumes:\n" ++ volume_line name ++ (post ++ service_block name image pg rd))
      = pre ++ "volumes:\n" ++ volume_line name ++
          (volume_line name ++ (post ++ service_block name image pg rd) ++
            service_block name image pg rd) := by
  have hpat : "volumes:\n".data ≠ [] := by decide
  simp only [countOccsS, String.data_append] at h1
  constructor
  · apply String.ext
    simp only [add_to_docker_compose_content, subFirstS, String.data_append]
    have hno := no_early_occurrence "volumes:\n".data hpat pre.data post.data
      (post.data ++ (service_block name image pg rd).data)
      (by simpa [List.append_assoc] using h1)
    have key := subFirst_at "volumes:\n".data ("volumes:\n".data ++ (volume_line name).data)
      hpat pre.data (post.data ++ (service_block name image pg rd).data)
      (by simpa [List.append_assoc] using hno)
    simp only [List.append_assoc] at key ⊢
    exact key
  · apply String.ext
    simp only [add_to_docker_compose_content, subFirstS, String.data_append]
    have hno := no_early_occurrence "volumes:\n".data hpat pre.data post.data
      ((volume_line name).data ++ (post.data ++ ((service_block name image pg rd).data ++
        (service_block name image pg rd).data)))
      (by simpa [List.append_assoc] using h1)
    have key := subFirst_at "volumes:\n".data ("volumes:\n".data ++ (volume_line name).data)
      hpat pre.data ((volume_line name).data ++ (post.data ++
        ((service_block name image pg rd).data ++ (service_block name image pg rd).data)))
      (by simpa [List.append_assoc] using hno)
    simp only [List.append_assoc] at key ⊢
    exact key

/-- C2 witness: a concrete one-`volumes:` manifest, run twice. -/
theorem c2_witness :
    add_to_docker_compose_content "svc" "img" false false ("x:\n" ++ "volumes:\n" ++ "  old:\n")
      = "x:\n" ++ "volumes:\n" ++ volume_line "svc" ++
          ("  old:\n" ++ service_block "svc" "img" false false)
    ∧ add_to_docker_compose_content "svc" "img" false false
        ("x:\n" ++ "volumes:\n" ++ volume_line "svc" ++
          ("  old:\n" ++ service_block "svc" "img" false false))
      = "x:\n" ++ "volumes:\n" ++ volume_line "svc" ++
          (volume_line "svc" ++ ("  old:\n" ++ service_block "svc" "img" false false) ++
            service_block "svc" "img" false false) :=
  c2_volume_insertion "svc" "img" false false "x:\n" "  old:\n" (by decide) (by decide)

/-- `takeWhile` runs through a satisfying block up to the first failing
element. -/
theorem takeWhile_append_all {p : Char → Bool} :
    ∀ (M : List Char), (∀ c ∈ M, p c = true) → ∀ (x : Char) (R : List Char), p x = false →
      (M ++ x :: R).takeWhile p = M := by
  intro M
  induction M with
  | nil =>
    intro _ x R hx
    simp [List.takeWhile_cons, hx]
  | cons m M ih =>
    intro hM x R hx
    rw [List.cons_append, List.takeWhile_cons, if_pos (hM m (by simp))]
    rw [ih (fun c hc => hM c (by simp [hc])) x R hx]

/-- Unfolding equation of `fallbackRunSub` on a nonempty input. -/
theorem fallbackRunSub_cons (lit sline : List Char) (c : Char) (t : List Char) :
    fallbackRunSub lit sline (c :: t) =
      if lit <+: (c :: t) then
        if (((c :: t).drop lit.length).takeWhile (fun x => decide (x ≠ ')'))).isEmpty then
          c :: fallbackRunSub lit sline t
        else lit ++ ((c :: t).drop lit.length).takeWhile (fun x => decide (x ≠ ')')) ++
          '\n' :: (sline ++ ((c :: t).drop lit.length).drop
            (((c :: t).drop lit.length).takeWhile (fun x => decide (x ≠ ')'))).length)
      else c :: fallbackRunSub lit sline t := by
  simp [fallbackRunSub]

/-- The fallback substitution rewrites the first block by inserting the new
line after the block's existing entries, immediately before the closing
parenthesis. -/
theorem fallbackRunSub_at (lit sline : List Char) (hlit : lit ≠ []) :
    ∀ (P M R : List Char), M ≠ [] → (∀ c ∈ M, c ≠ ')') →
      (∀ j, j < P.length → ¬ lit <+: (P ++ lit ++ (M ++ ')' :: R)).drop j) →
      fallbackRunSub lit sline (P ++ lit ++ (M ++ ')' :: R))
        = P ++ lit ++ (M ++ '\n' :: (sline ++ ')' :: R)) := by
  intro P
  induction P with
  | nil =>
    intro M R hM hMc _
    cases lit with
    | nil => exact absurd rfl hlit
    | cons l0 lt =>
      simp only [List.nil_append, List.cons_append, fallbackRunSub_cons]
      rw [if_pos (by rw [← List.cons_append]; exact List.prefix_append _ _)]
      have hdrop : (l0 :: (lt ++ (M ++ ')' :: R))).drop (l0 :: lt).length = M ++ ')' :: R := by
        rw [List.length_cons, List.drop_succ_cons, List.drop_left]
      rw [hdrop]
      have htw : (M ++ ')' :: R).takeWhile (fun x => decide (x ≠ ')')) = M :=
        takeWhile_append_all M (fun c hc => by simpa using hMc c hc) ')' R (by simp)
      rw [htw]
      rw [if_neg (by simpa [List.isEmpty_iff] using hM)]
      rw [List.drop_left]
      simp [List.cons_append, List.append_assoc]
  | cons c P ih =>
    intro M R hM hMc hno
    have h0 : ¬ lit <+: (c :: (P ++ lit ++ (M ++ ')' :: R))) := by
      have := hno 0 (by simp)
      simpa [List.cons_append] using this
    have hno' : ∀ j, j < P.length → ¬ lit <+: (P ++ lit ++ (M ++ ')' :: R)).drop j := by
      intro j hj
      have := hno (j + 1) (by simpa using Nat.succ_lt_succ hj)
      simpa [List.cons_append] using this
    calc fallbackRunSub lit sline ((c :: P) ++ lit ++ (M ++ ')' :: R))
        = fallbackRunSub lit sline (c :: (P ++ lit ++ (M ++ ')' :: R))) := by
          simp [List.cons_append]
      _ = c :: fallbackRunSub lit sline (P ++ lit ++ (M ++ ')' :: R)) := by
          rw [fallbackRunSub_cons, if_neg h0]
      _ = c :: (P ++ lit ++ (M ++ '\n' :: (sline ++ ')' :: R))) := by
          rw [ih M R hM hMc hno']
      _ = (c :: P) ++ lit ++ (M ++ '\n' :: (sline ++ ')' :: R)) := by
          simp [List.cons_append]

/-- C5 counterexample: with neither `"outline"` nor `"docmost"` present, the
fallback inserts the menu entry at the end of the `base_services_data` block
(just before the closing parenthesis), not immediately after the block's
opening marker and before its existing entries as the claim states. -/
theorem c5_counterexample :
    add_to_wizard_content "svc" "Svc" c5Content
      = "x\nbase_services_data=(\n    \"a\" \"A\"\n\n    \"svc\" \"Svc\"\n)\nrest"
    ∧ add_to_wizard_content "svc" "Svc" c5Content
      ≠ "x\nbase_services_data=(\n    \"svc\" \"Svc\"\n    \"a\" \"A\"\n)\nrest" := by
  constructor
  · rfl
  · decide

/-- C5 amended: in `add_to_wizard`, when the content has neither anchor but
contains a `base_services_data=(` block with at least one character before
its closing parenthesis, the new menu-entry line is inserted at the end of
the block, immediately before the first closing parenthesis (after any
existing entries), not right after the opening marker. -/
theorem c5_amended_fallback_before_close (name display : String) (pre mid rest : String)
    (hout : containsSubS "\"outline\""
      (pre ++ "\nbase_services_data=(" ++ mid ++ ")" ++ rest) = false)
    (hdoc : containsSubS "\"docmost\""
      (pre ++ "\nbase_services_data=(" ++ mid ++ ")" ++ rest) = false)
    (hmid : mid.data ≠ [])
    (hmidc : ∀ c ∈ mid.data, c ≠ ')')
    (hfirst : ∀ j, j < pre.data.length →
      ¬ "\nbase_services_data=(".data <+:
        (pre ++ "\nbase_services_data=(" ++ mid ++ ")" ++ rest).data.drop j) :
    add_to_wizard_content name display (pre ++ "\nbase_services_data=(" ++ mid ++ ")" ++ rest)
      = pre ++ "\nbase_services_data=(" ++ mid ++ "\n" ++
          wizard_service_line name display ++ ")" ++ rest := by
  rw [add_to_wizard_content]
  rw [if_neg (by simp [hout]), if_neg (by simp [hdoc])]
  apply String.ext
  rw [wizardFallbackSub]
  have key := fallbackRunSub_at "\nbase_services_data=(".data
    (wizard_service_line name display).data (by decide)
    pre.data mid.data rest.data hmid hmidc
    (by
      intro j hj
      have := hfirst j hj
      simpa [String.data_append, List.append_assoc, List.singleton_append] using this)
  simpa [String.data_append, List.append_assoc, List.singleton_append] using key

/-- C5 amended witness: the concrete `c5Content` block. -/
theorem c5_amended_witness :
    add_to_wizard_content "svc" "Svc"
        ("x" ++ "\nbase_services_data=(" ++ "\n    \"a\" \"A\"\n" ++ ")" ++ "\nrest")
      = "x" ++ "\nbase_services_data=(" ++ "\n    \"a\" \"A\"\n" ++ "\n" ++
          wizard_service_line "svc" "Svc" ++ ")" ++ "\nrest" :=
  c5_amended_fallback_before_close "svc" "Svc" "x" "\n    \"a\" \"A\"\n" "\nrest"
    (by decide) (by decide) (by decide) (by decide) (by decide)

/-- C3: when the merged analysis reports neither `has_dockerfile` nor
`has_docker_compose` (absent or falsy), `main` returns exit code 1 and no
Integrator mutation runs, so every target file keeps its prior content. -/
theorem c3_no_docker_support_exit1 (url owner : String) (w : World) (a : PyDict)
    (howner : ownerOf url = some owner)
    (ha : run_analysis url owner w = .ok a)
    (h1 : truthy (pyGetD a "has_docker_compose" Value.none) = false)
    (h2 : truthy (pyGetD a "has_dockerfile" Value.none) = false) :
    (mainModel url w).exit = .code 1 ∧ (mainModel url w).files = w.files := by
  simp [mainModel, howner, ha, h1, h2]

/-- C3 witness: a repository with no Docker artifacts at all. -/
theorem c3_witness :
    (mainModel "a/b" ⟨true, emptyRepo, [], emptyFiles⟩).exit = .code 1 ∧
    (mainModel "a/b" ⟨true, emptyRepo, [], emptyFiles⟩).files =
      (⟨true, emptyRepo, [], emptyFiles⟩ : World).files :=
  c3_no_docker_support_exit1 "a/b" "a" ⟨true, emptyRepo, [], emptyFiles⟩
    [("repo_name", .str "b"), ("repo_owner", .str "a"), ("github_url", .str "a/b")]
    rfl rfl rfl rfl

/-- C9: on every run in which the clone workspace was created (`temp_dir`
assigned by `clone_repo`), `cleanup` runs in the `finally` block and the
workspace directory is removed — on the clone-failure, analysis-failure,
no-Docker-support, user-cancellation and success paths alike. -/
theorem c9_cleanup_on_every_path (url : String) (w : World)
    (h : (mainModel url w).tempCreated = true) :
    (mainModel url w).cleanupRan = true ∧ (mainModel url w).tempRemoved = true := by
  rw [mainModel] at h ⊢
  cases ho : ownerOf url with
  | none =>
    rw [ho] at h
    exact Bool.noConfusion h
  | some owner =>
    dsimp only
    cases ha : run_analysis url owner w with
    | error e => exact ⟨rfl, rfl⟩
    | ok a =>
      dsimp only
      by_cases hb : (!truthy (pyGetD a "has_docker_compose" Value.none) &&
          !truthy (pyGetD a "has_dockerfile" Value.none)) = true
      · rw [if_pos hb]
        exact ⟨rfl, rfl⟩
      · rw [if_neg hb]
        cases hic : interactive_config a w.inputs with
        | error e => exact ⟨rfl, rfl⟩
        | ok pr =>
          obtain ⟨conf, cfg⟩ := pr
          dsimp only
          cases conf
          · exact ⟨rfl, rfl⟩
          · rcases hi : integrate cfg w.files with ⟨t, oe⟩
            cases oe
            · exact ⟨rfl, rfl⟩
            · exact ⟨rfl, rfl⟩

/-- C9 witness: a failing clone still cleans up the created workspace. -/
theorem c9_witness :
    (mainModel "a/b" ⟨false, emptyRepo, [], emptyFiles⟩).cleanupRan = true ∧
    (mainModel "a/b" ⟨false, emptyRepo, [], emptyFiles⟩).tempRemoved = true :=
  c9_cleanup_on_every_path "a/b" ⟨false, emptyRepo, [], emptyFiles⟩ rfl

/-- Binding an `ok` value applies the continuation. -/
theorem ok_bind {α β : Type} (a : α) (f : α → Except PyErr β) :
    (Except.ok a >>= f) = f a := rfl

/-- `pure` returns `ok` of exactly its argument. -/
theorem except_pure_ok {α : Type} (a c : α) :
    (pure a : Except PyErr α) = .ok c ↔ a = c := by
  constructor
  · intro h
    exact (Except.ok.injEq a c).mp h
  · intro h
    rw [h]
    rfl

/-- C4 counterexample: in the src/scripts copy, an analysis whose `ports` key
holds an empty list makes the port-default expression
`self.analysis.get('ports', [None])[0]` raise `IndexError`, so the prompt
default is not computed totally. -/
theorem c4_counterexample :
    interactive_config_s [("repo_name", .str "x"), ("repo_owner", .str "o"), ("ports", .list [])]
      ["", "", "", "", "", "", "yes"] = .error .indexError := rfl

/-- C4 amended: in the integrate copy the internal-port default is the string
`'3000'` whenever `ports` is absent or an empty list, computed totally, and
any run of its `interactive_config` that accepts the port default yields a
`service_config` whose `port` is `'3000'`; the src/scripts copy instead
raises `IndexError` when `ports` is present and empty. -/
theorem c4_amended_default_port (d : PyDict)
    (hp : pyLookup d "ports" = Option.none ∨ pyLookup d "ports" = some (.list [])) :
    default_port_integrate d = .ok (.str "3000") ∧
    ∀ (i1 i2 i3 i5 i6 i7 : String) (rest : List String) (b : Bool) (cfg : PyDict),
      interactive_config d (i1 :: i2 :: i3 :: "" :: i5 :: i6 :: i7 :: rest) = .ok (b, cfg) →
      pyLookup cfg "port" = some (.str "3000") := by
  have hdp : default_port_integrate d = .ok (.str "3000") := by
    rcases hp with hp | hp <;>
      simp [default_port_integrate, pyGetD, hp, truthy, pure, Except.pure]
  refine ⟨hdp, ?_⟩
  intro i1 i2 i3 i5 i6 i7 rest b cfg h
  simp only [interactive_config, hdp, nextInput, ok_bind, except_bind_ok, except_pure_ok] at h
  obtain ⟨rn, hrn, rns, hrns, rn2, hrn2, pv, hpv, n, hn, ow, how, rn3, hrn3, hfin⟩ := h
  rw [Prod.mk.injEq] at hfin
  obtain ⟨-, hcfg⟩ := hfin
  subst hcfg
  rfl

/-- C4 witness: a concrete analysis dict without `ports`, all defaults
accepted. -/
theorem c4_witness :
    default_port_integrate [("repo_name", Value.str "x"), ("repo_owner", Value.str "o")]
      = .ok (.str "3000") ∧
    pyLookup [("name", Value.str "x"), ("display_name", Value.str "x"),
        ("description", Value.str ""), ("port", Value.str "3000"),
        ("image", Value.str "o/x:latest"), ("hostname", Value.str "x"),
        ("needs_postgres", Value.bool false), ("needs_redis", Value.bool false)] "port"
      = some (.str "3000") :=
  ⟨(c4_amended_default_port [("repo_name", Value.str "x"), ("repo_owner", Value.str "o")]
      (Or.inl rfl)).1,
   (c4_amended_default_port [("repo_name", Value.str "x"), ("repo_owner", Value.str "o")]
      (Or.inl rfl)).2 "" "" "" "" "" "yes" [] true _ rfl⟩

/-- C6: for a repository holding only a Dockerfile (here one whose `EXPOSE`
scan yields `5000`), running the analysis and then `interactive_config` with
every prompt accepting its default and `yes` at the gate produces a
`service_config` with `port = '3000'` (the Dockerfile's exposed ports are
never consulted for the default) and `needs_postgres = False`. -/
theorem c6_port_default_and_postgres (dfc : String)
    (hports : exposedPortsOf dfc = ["5000"]) :
    ((run_analysis "https://github.com/owner/repo" "owner"
        ⟨true, ⟨some dfc, Option.none, Option.none, Option.none, Option.none, Option.none,
          Option.none, Option.none⟩, ["", "", "", "", "", "", "yes"], emptyFiles⟩).bind
      (fun a => interactive_config a ["", "", "", "", "", "", "yes"])).toOption.map
        (fun p => (p.1, pyLookup p.2 "port", pyLookup p.2 "needs_postgres"))
      = some (true, some (.str "3000"), some (.bool false)) := by
  have key : run_analysis "https://github.com/owner/repo" "owner"
      ⟨true, ⟨some dfc, Option.none, Option.none, Option.none, Option.none, Option.none,
        Option.none, Option.none⟩, ["", "", "", "", "", "", "yes"], emptyFiles⟩
      = .ok [("repo_name", .str "repo"), ("repo_owner", .str "owner"),
             ("github_url", .str "https://github.com/owner/repo"),
             ("has_dockerfile", .bool true),
             ("exposed_ports", .list [.str "5000"]),
             ("env_vars", .list ((dockerfileEnvVarsOf dfc).map Value.str))] := by
    simp only [run_analysis, run_analysis_merge, analyze_dockerfile, analyze_docker_compose,
      analyze_readme, analyze_package_json, findComposeFile, findReadmeFile, hports]
    rfl
  rw [key]
  rfl

/-- C6 witness: the literal Dockerfile `EXPOSE 5000`. -/
theorem c6_witness :
    ((run_analysis "https://github.com/owner/repo" "owner"
        ⟨true, ⟨some "EXPOSE 5000", Option.none, Option.none, Option.none, Option.none,
          Option.none, Option.none, Option.none⟩, ["", "", "", "", "", "", "yes"],
          emptyFiles⟩).bind
      (fun a => interactive_config a ["", "", "", "", "", "", "yes"])).toOption.map
        (fun p => (p.1, pyLookup p.2 "port", pyLookup p.2 "needs_postgres"))
      = some (true, some (.str "3000"), some (.bool false)) :=
  c6_port_default_and_postgres "EXPOSE 5000" (by decide)

/-- Under the stated conditions on `description` and `ports`, the two copies'
`interactive_config` agree on every input sequence. -/
theorem interactive_config_copies_agree (d : PyDict) (ins : List String)
    (hdsc : pyLookup d "description" = Option.none ∨
      ∃ s, pyLookup d "description" = some (.str s))
    (hpts : pyLookup d "ports" = Option.none ∨
      ∃ x xs, pyLookup d "ports" = some (.list (x :: xs)) ∧ truthy x = true) :
    interactive_config_s d ins = interactive_config d ins := by
  have hs : ∃ s : String, pyGetD d "description" (.str "") = .str s := by
    rcases hdsc with h | ⟨s, h⟩
    · exact ⟨"", by simp [pyGetD, h]⟩
    · exact ⟨s, by simp [pyGetD, h]⟩
  obtain ⟨s, hs⟩ := hs
  have hport : ∃ v, default_port_scripts d = .ok v ∧ default_port_integrate d = .ok v := by
    rcases hpts with h | ⟨x, xs, h, htx⟩
    · refine ⟨.str "3000", ?_, ?_⟩
      · simp [default_port_scripts, pyGetD, h, pyIndex0, truthy, Bind.bind, Except.bind,
          pure, Except.pure]
      · simp [default_port_integrate, pyGetD, h, truthy, pure, Except.pure]
    · refine ⟨x, ?_, ?_⟩
      · simp [default_port_scripts, pyGetD, h, pyIndex0, htx, Bind.bind, Except.bind,
          pure, Except.pure]
      · simp [default_port_integrate, pyGetD, h, truthy, pyIndex0]
  obtain ⟨v, hvs, hvi⟩ := hport
  by_cases hse : s = ""
  · subst hse
    have h1 : desc_preview_integrate (Value.str "") = .ok (.str "No description available") := rfl
    simp only [interactive_config, interactive_config_s, hs, hvs, hvi, ok_bind]
    simp [h1, ok_bind, pySlice, pyLen]
  · have htr : truthy (Value.str s) = true := by
      have hd : s.data ≠ [] := by
        intro hh
        exact hse (String.ext (by simp [hh]))
      simp [truthy, List.isEmpty_iff, hd]
    have h1 : desc_preview_integrate (Value.str s) = .ok (.str (String.mk (s.data.take 50))) := by
      simp [desc_preview_integrate, htr, pySlice]
    simp only [interactive_config, interactive_config_s, hs, hvs, hvi, ok_bind]
    simp [h1, htr, ok_bind, pySlice, pyLen]

/-- C10 counterexample: the two copies do not write the Caddyfile to the same
target path (`Caddyfile` vs `config/caddy/Caddyfile`), so they are not
observationally equivalent on their shared operations as claimed. -/
theorem c10_counterexample : caddyfile_path_scripts ≠ caddyfile_path_integrate := by
  decide

/-- C10 amended: the copies agree on the `add_to_docker_compose` content
transformation and on the `add_to_caddyfile` appended block, but
`add_to_caddyfile` writes to different target paths; `add_to_env_example`
produces the same content only when the description is nonempty (the copies
differ on an empty one); and `interactive_config` returns the same decision
and `service_config` on every input sequence provided `description`, if
present, is a string and `ports`, if present, is a nonempty list with a
truthy first element (outside those conditions the copies diverge, e.g. the
src/scripts copy raises `IndexError` on an empty `ports`). -/
theorem c10_amended_copy_comparison :
    (∀ (name image : String) (pg rd : Bool) (content : String),
      add_to_docker_compose_content_s name image pg rd content
        = add_to_docker_compose_content name image pg rd content) ∧
    (∀ name display port content : String,
      add_to_caddyfile_content_s name display port content
        = add_to_caddyfile_content name display port content) ∧
    caddyfile_path_scripts ≠ caddyfile_path_integrate ∧
    (∀ name display desc hostname content : String, desc ≠ "" →
      add_to_env_example_content_s name display desc hostname content
        = add_to_env_example_content name display desc hostname content) ∧
    add_to_env_example_content_s "svc" "Svc" "" "svc" ""
      ≠ add_to_env_example_content "svc" "Svc" "" "svc" "" ∧
    (∀ (d : PyDict) (ins : List String),
      (pyLookup d "description" = Option.none ∨
        ∃ s, pyLookup d "description" = some (.str s)) →
      (pyLookup d "ports" = Option.none ∨
        ∃ x xs, pyLookup d "ports" = some (.list (x :: xs)) ∧ truthy x = true) →
      interactive_config_s d ins = interactive_config d ins) := by
  refine ⟨?_, ?_, ?_, ?_, ?_, ?_⟩
  · intro name image pg rd content
    rfl
  · intro name display port content
    rfl
  · decide
  · intro name display desc hostname content h
    simp [add_to_env_example_content, add_to_env_example_content_s, h]
  · decide
  · intro d ins hdsc hpts
    exact interactive_config_copies_agree d ins hdsc hpts

/-- C10 amended witness: a concrete analysis dict (no `description`, no
`ports`) on which both copies' `interactive_config` coincide. -/
theorem c10_witness :
    interactive_config_s [("repo_name", Value.str "x"), ("repo_owner", Value.str "o")]
        ["", "", "", "", "", "", "yes"]
      = interactive_config [("repo_name", Value.str "x"), ("repo_owner", Value.str "o")]
        ["", "", "", "", "", "", "yes"] :=
  c10_amended_copy_comparison.2.2.2.2.2
    [("repo_name", Value.str "x"), ("repo_owner", Value.str "o")]
    ["", "", "", "", "", "", "yes"] (Or.inl rfl) (Or.inl rfl)

end N8n
